import Mathlib

/-!
Verification of the `CDroidJNI` bridge adapter (`Helpers.h` / `Helpers.cpp`).

The adapter is a stateless forwarding layer over the JNI runtime.  We embed
it shallowly: the external runtime is an oracle state `JNIState` (managed
byte arrays, class/method lookup tables, status codes the runtime would
report), each external entry point is a pure function on that state, and
each exported C function of the adapter is a Lean function returning the
caller-visible output, the successor runtime state, and the trace of
external calls it made (`List ExtCall`).  Machine integers are modelled as
`Int`/`Nat` with explicit wraparound where the C code converts between
widths (`unsigned int` → `jsize`).
-/

namespace CDroidJNI

/-- A `jbyte` (signed 8-bit array element), modelled as `Int`. -/
abbrev JByte := Int

/-- The `CData` struct of `Helpers.h`: a caller-owned native byte buffer.
`data` models the bytes reachable from the `data` pointer; `count` is the
`unsigned int` count field (32-bit, so meaningful values are `< 2^32`). -/
structure CData where
  data : List JByte
  count : Nat
  deriving Repr

/-- The `JNI_VERSION_1_6` constant of `jni.h` (`0x00010006`). -/
def JNI_VERSION_1_6 : Int := 65542

/-- Conversion of the 32-bit `unsigned int` count to the signed 32-bit
`jsize` the JNI entry points take, as C performs it: reduce modulo `2^32`
and reinterpret in two's complement. -/
def toJsize (n : Nat) : Int :=
  if n % 2 ^ 32 < 2 ^ 31 then ((n % 2 ^ 32 : Nat) : Int)
  else ((n % 2 ^ 32 : Nat) : Int) - 2 ^ 32

/-- One call from the adapter into the external runtime, recording the
entry point used and the arguments handed to it. -/
inductive ExtCall where
  | getJavaVM : ExtCall
  | getEnv (version : Int) : ExtCall
  | attachCurrentThread : ExtCall
  | detachCurrentThread : ExtCall
  | getObjectClass (obj : Nat) : ExtCall
  | getMethodID (cls : Nat) (name sig : String) : ExtCall
  | callVoidMethodExt (obj : Nat) (mid : Option Nat) : ExtCall
  | getArrayLengthExt (arr : Nat) : ExtCall
  | getByteArrayElementsExt (arr : Nat) (isCopy : Option Bool) : ExtCall
  | newByteArray (len : Int) : ExtCall
  | setByteArrayRegion (arr : Nat) (start len : Int) : ExtCall
  deriving DecidableEq, Repr

/-- The external JNI runtime, modelled as oracle state.  Managed byte
arrays are a list indexed by reference; lookup tables and status codes are
oracle fields the runtime would consult; `invoked` logs the managed method
invocations the runtime performed (object, method id, argument list). -/
structure JNIState where
  arrays : List (List JByte)
  classOf : Nat → Nat
  methodID : Nat → String → String → Option Nat
  elemPtr : Nat → Int
  allocFails : Bool
  getEnvStatus : Int
  attachStatus : Int
  detachStatus : Int
  envHandle : Int
  vmHandle : Int
  attached : Bool
  invoked : List (Nat × Option Nat × List Int)

/-! ### External runtime entry points (the JNI side, per the JNI spec) -/

/-- `JNIEnv::GetJavaVM`: writes the process VM handle into the out slot and
reports a status; result is `(status, vm-slot value)`. -/
def extGetJavaVM (s : JNIState) : Int × Int :=
  (0, s.vmHandle)

/-- `JavaVM::GetEnv`: reports a status code and writes the env slot; on a
non-success status the slot is set to null (modelled as `0`).  Result is
`(status, env-slot value)`. -/
def extGetEnv (s : JNIState) (version : Int) : Int × Int :=
  (s.getEnvStatus, if s.getEnvStatus = 0 then s.envHandle else 0)

/-- `JavaVM::AttachCurrentThread`: on success registers the thread and
writes the env slot; result is `(status, env-slot value, new state)`. -/
def extAttachCurrentThread (s : JNIState) : Int × Int × JNIState :=
  if s.attachStatus = 0 then (0, s.envHandle, { s with attached := true })
  else (s.attachStatus, 0, s)

/-- `JavaVM::DetachCurrentThread`: on success unregisters the thread;
result is `(status, new state)`. -/
def extDetachCurrentThread (s : JNIState) : Int × JNIState :=
  if s.detachStatus = 0 then (0, { s with attached := false })
  else (s.detachStatus, s)

/-- `JNIEnv::GetObjectClass`: the class of a managed object (oracle). -/
def extGetObjectClass (s : JNIState) (obj : Nat) : Nat :=
  s.classOf obj

/-- `JNIEnv::GetMethodID`: name-plus-signature lookup on a class; `none`
models the null method id of a failed lookup. -/
def extGetMethodID (s : JNIState) (cls : Nat) (name sig : String) :
    Option Nat :=
  s.methodID cls name sig

/-- `JNIEnv::CallVoidMethod`: invokes a method on an object with the given
arguments, discarding the result; the runtime logs the invocation.  A null
(`none`) method id is passed through unchecked. -/
def extCallVoidMethod (s : JNIState) (obj : Nat) (mid : Option Nat)
    (args : List Int) : JNIState :=
  { s with invoked := s.invoked ++ [(obj, mid, args)] }

/-- `JNIEnv::GetArrayLength`: the element count of a managed array. -/
def extGetArrayLength (s : JNIState) (arr : Nat) : Int :=
  ((s.arrays.getD arr []).length : Int)

/-- `JNIEnv::GetByteArrayElements`: yields the element pointer for a
managed byte array; `isCopy` models the caller-provided is-copy out slot
(`none` = null pointer, i.e. no hint requested). -/
def extGetByteArrayElements (s : JNIState) (arr : Nat)
    (isCopy : Option Bool) : Int :=
  s.elemPtr arr

/-- `JNIEnv::NewByteArray`: allocates a fresh zero-filled managed byte
array of the given signed length; yields `none` (null) when the allocator
fails or the requested length is negative. -/
def extNewByteArray (s : JNIState) (len : Int) : Option Nat × JNIState :=
  if s.allocFails ∨ len < 0 then (none, s)
  else (some s.arrays.length,
    { s with arrays := s.arrays ++ [List.replicate len.toNat 0] })

/-- Overwrite the region `[start, start+len)` of array contents `a` with
the first `len` bytes of the source buffer `buf`. -/
def writeRegion (a : List JByte) (start len : Int) (buf : List JByte) :
    List JByte :=
  a.take start.toNat ++ buf.take len.toNat ++ a.drop (start.toNat + len.toNat)

/-- `JNIEnv::SetByteArrayRegion`: copies `len` bytes of the native buffer
`buf` into array `arr` starting at offset `start`. -/
def extSetByteArrayRegion (s : JNIState) (arr : Nat) (start len : Int)
    (buf : List JByte) : JNIState :=
  { s with arrays :=
      s.arrays.set arr (writeRegion (s.arrays.getD arr []) start len buf) }

/-! ### The adapter (`Helpers.cpp`)

Each function returns `(caller-visible output, successor state, trace)`.
The caller-visible output is exactly what the C function returns plus what
it writes through its out parameters; external status codes the C code
discards do not appear in it. -/

/-- `void GetJVM(JNIEnv *env, JavaVM **vm)`: forwards to `GetJavaVM`,
discarding its status; the caller observes the written vm slot. -/
def GetJVM (s : JNIState) : Int × JNIState × List ExtCall :=
  let r := extGetJavaVM s
  (r.2, s, [ExtCall.getJavaVM])

/-- `void GetJNIEnv(JavaVM *vm, JNIEnv **p_env)`: forwards to
`vm->GetEnv(p_env, JNI_VERSION_1_6)`, discarding the returned status; the
caller observes the written env slot. -/
def GetJNIEnv (s : JNIState) : Int × JNIState × List ExtCall :=
  let r := extGetEnv s JNI_VERSION_1_6
  (r.2, s, [ExtCall.getEnv JNI_VERSION_1_6])

/-- `void AttachCurrentThread(JavaVM *vm, JNIEnv **p_env)`: forwards to
`vm->AttachCurrentThread(p_env, NULL)`, discarding the returned status;
the caller observes the written env slot. -/
def AttachCurrentThread (s : JNIState) : Int × JNIState × List ExtCall :=
  let r := extAttachCurrentThread s
  (r.2.1, r.2.2, [ExtCall.attachCurrentThread])

/-- `void DetachCurrentThread(JavaVM *vm)`: forwards to
`vm->DetachCurrentThread()`, discarding the returned status; the caller
observes nothing. -/
def DetachCurrentThread (s : JNIState) : Unit × JNIState × List ExtCall :=
  let r := extDetachCurrentThread s
  ((), r.2, [ExtCall.detachCurrentThread])

/-- `void CallVoidMethod(JNIEnv *env, jobject thisClass, const char *name,
const char *sig)`: resolves the object's class, resolves the method id by
name+signature, then invokes it with no arguments, with no null check on
the method id. -/
def CallVoidMethod (s : JNIState) (thisClass : Nat) (name sig : String) :
    Unit × JNIState × List ExtCall :=
  let jc := extGetObjectClass s thisClass
  let mid := extGetMethodID s jc name sig
  ((), extCallVoidMethod s thisClass mid [],
    [ExtCall.getObjectClass thisClass, ExtCall.getMethodID jc name sig,
     ExtCall.callVoidMethodExt thisClass mid])

/-- `int GetArrayLength(JNIEnv *env, jclass thisClass, jbyteArray bArray)`:
forwards to `env->GetArrayLength(bArray)` and returns the length; the
`thisClass` parameter is never read. -/
def GetArrayLength (s : JNIState) (thisClass arr : Nat) :
    Int × JNIState × List ExtCall :=
  let len := extGetArrayLength s arr
  (len, s, [ExtCall.getArrayLengthExt arr])

/-- `jbyte *GetByteArrayElements(JNIEnv *env, jclass thisClass, jbyteArray
bArray)`: forwards to `env->GetByteArrayElements(bArray, 0)` — a null
is-copy slot — and returns the resulting pointer; the `thisClass`
parameter is never read. -/
def GetByteArrayElements (s : JNIState) (thisClass arr : Nat) :
    Int × JNIState × List ExtCall :=
  let p := extGetByteArrayElements s arr none
  (p, s, [ExtCall.getByteArrayElementsExt arr none])

/-- `jbyteArray data_SwiftToJava(JNIEnv *env, CData *data)`: allocates a
managed byte array of `data->count` elements; on a null allocation result
returns null at once; otherwise copies `data->count` bytes of the buffer
into the array starting at offset 0 and returns the array reference.  Both
lengths undergo the C `unsigned int` → `jsize` conversion. -/
def data_SwiftToJava (s : JNIState) (d : CData) :
    Option Nat × JNIState × List ExtCall :=
  let len := toJsize d.count
  match extNewByteArray s len with
  | (none, s1) => (none, s1, [ExtCall.newByteArray len])
  | (some ret, s1) =>
      (some ret, extSetByteArrayRegion s1 ret 0 len d.data,
        [ExtCall.newByteArray len, ExtCall.setByteArrayRegion ret 0 len])

/-! ### Concrete states for witnesses and counterexamples -/

/-- A concrete runtime state: arrays as given, every oracle trivial, all
statuses success, allocator healthy. -/
def mkState (arrs : List (List JByte)) : JNIState where
  arrays := arrs
  classOf := fun _ => 5
  methodID := fun _ _ _ => none
  elemPtr := fun _ => 0
  allocFails := false
  getEnvStatus := 0
  attachStatus := 0
  detachStatus := 0
  envHandle := 1
  vmHandle := 1
  attached := false
  invoked := []

/-- A concrete runtime state whose allocator fails. -/
def failState : JNIState :=
  { mkState [] with allocFails := true }

/-- A concrete runtime state whose detach reports success. -/
def detachOkState : JNIState :=
  mkState []

/-- A concrete runtime state whose detach reports `JNI_EDETACHED` (-2). -/
def detachErrState : JNIState :=
  { mkState [] with detachStatus := -2 }

/-- The concrete buffer of spec §8 item 7: bytes `[0x41, 0x00, 0xFF]`
(the last byte is `-1` as a signed 8-bit value), count 3. -/
def exBuf : CData :=
  { data := [65, 0, -1], count := 3 }

/-! ### Helper lemmas -/

/-- Unsigned counts below `2^31` survive the `unsigned int` → `jsize`
conversion unchanged. -/
theorem toJsize_of_lt (n : Nat) (h : n < 2 ^ 31) : toJsize n = (n : Int) := by
  have hw : n < 2 ^ 32 := lt_trans h (by norm_num)
  unfold toJsize
  rw [Nat.mod_eq_of_lt hw, if_pos h]

/-- A non-negative `jsize` obtained from a 32-bit count means the count was
below `2^31` and the conversion was the identity. -/
theorem toJsize_nonneg_elim (n : Nat) (hw : n < 2 ^ 32)
    (hnn : ¬ toJsize n < 0) : toJsize n = (n : Int) ∧ n < 2 ^ 31 := by
  by_cases hlt : n < 2 ^ 31
  · exact ⟨toJsize_of_lt n hlt, hlt⟩
  · exfalso
    apply hnn
    simp only [toJsize, Nat.mod_eq_of_lt hw, if_neg hlt]
    have : (2 ^ 31 : Nat) ≤ n := Nat.le_of_not_lt hlt
    push_cast
    omega

/-- Setting the final slot of an appended singleton. -/
theorem set_append_singleton {α : Type} (l : List α) (a b : α) :
    (l ++ [a]).set l.length b = l ++ [b] := by
  rw [List.set_append_right _ _ (Nat.le_refl _)]
  simp

/-- A count of at least `2^31` (but within 32 bits) wraps to a negative
`jsize` distinct from the count itself. -/
theorem toJsize_wraps (n : Nat) (h1 : 2 ^ 31 ≤ n) (h2 : n < 2 ^ 32) :
    toJsize n = (n : Int) - 2 ^ 32 ∧ toJsize n < 0 ∧ toJsize n ≠ (n : Int) := by
  have hlt : ¬ n % 2 ^ 32 < 2 ^ 31 := by
    rw [Nat.mod_eq_of_lt h2]
    exact Nat.not_lt.mpr h1
  have he : toJsize n = (n : Int) - 2 ^ 32 := by
    unfold toJsize
    rw [Nat.mod_eq_of_lt h2, if_neg (Nat.not_lt.mpr h1)]
  refine ⟨he, ?_, ?_⟩ <;> rw [he] <;> omega

/-! ### Claim theorems -/

/-- C5: for every byte-array reference holding `a` (length `N`), the
adapter's `GetArrayLength` returns exactly `N` as a signed integer, leaves
the runtime state unchanged, and makes exactly the one external
`GetArrayLength` call. -/
theorem GetArrayLength_returns_length (s : JNIState) (cls arr : Nat)
    (a : List JByte) (h : s.arrays[arr]? = some a) :
    GetArrayLength s cls arr =
      ((a.length : Int), s, [ExtCall.getArrayLengthExt arr]) := by
  simp [GetArrayLength, extGetArrayLength, List.getD_eq_getElem?_getD, h]

/-- Witness for C5 at the concrete array `[0x41, 0x00, 0xFF]`. -/
theorem GetArrayLength_returns_length_witness :
    GetArrayLength (mkState [[65, 0, -1]]) 0 0 =
      ((([65, 0, -1] : List JByte).length : Int), mkState [[65, 0, -1]],
        [ExtCall.getArrayLengthExt 0]) :=
  GetArrayLength_returns_length (mkState [[65, 0, -1]]) 0 0 [65, 0, -1] rfl

/-- C6: neither `GetArrayLength` nor `GetByteArrayElements` consults the
class-handle argument: any two class handles give identical outputs,
identical successor states and identical call traces. -/
theorem classHandle_not_consulted (s : JNIState) (c1 c2 arr : Nat) :
    GetArrayLength s c1 arr = GetArrayLength s c2 arr ∧
    GetByteArrayElements s c1 arr = GetByteArrayElements s c2 arr :=
  ⟨rfl, rfl⟩

/-- C7: `GetByteArrayElements` passes a null is-copy slot (`none` — the
literal `0` of the C call) to the external runtime and returns the
runtime's pointer unchanged, with no state change. -/
theorem GetByteArrayElements_no_hint (s : JNIState) (cls arr : Nat) :
    GetByteArrayElements s cls arr =
      (extGetByteArrayElements s arr none, s,
        [ExtCall.getByteArrayElementsExt arr none]) :=
  rfl

/-- C9: `GetJNIEnv` takes no version argument and always hands the fixed
constant `JNI_VERSION_1_6` (`0x00010006 = 65542`) to the external
`GetEnv`, whatever the runtime state. -/
theorem GetJNIEnv_fixed_version (s : JNIState) :
    (GetJNIEnv s).2.2 = [ExtCall.getEnv JNI_VERSION_1_6] ∧
    JNI_VERSION_1_6 = 65542 :=
  ⟨rfl, rfl⟩

/-- C4: `CallVoidMethod` performs exactly, and in order, the class
resolution, the name-plus-signature method lookup on that class, and the
no-argument invocation with the looked-up method id — whatever that id is;
when the lookup yields `none` (null), the invocation is still performed
with the null id (no null check). -/
theorem CallVoidMethod_steps (s : JNIState) (obj : Nat) (name sig : String) :
    (CallVoidMethod s obj name sig =
      ((), extCallVoidMethod s obj
          (extGetMethodID s (extGetObjectClass s obj) name sig) [],
        [ExtCall.getObjectClass obj,
         ExtCall.getMethodID (extGetObjectClass s obj) name sig,
         ExtCall.callVoidMethodExt obj
           (extGetMethodID s (extGetObjectClass s obj) name sig)])) ∧
    (extGetMethodID s (extGetObjectClass s obj) name sig = none →
      (CallVoidMethod s obj name sig).2.1.invoked =
        s.invoked ++ [(obj, none, [])]) := by
  constructor
  · rfl
  · intro hnone
    simp [CallVoidMethod, extCallVoidMethod, hnone]

/-- Witness for C4: in `mkState []` every lookup fails, yet the
invocation is performed with the null method id. -/
theorem CallVoidMethod_steps_witness :
    (CallVoidMethod (mkState []) 7 "cb" "()V").2.1.invoked =
      (mkState []).invoked ++ [(7, none, [])] :=
  (CallVoidMethod_steps (mkState []) 7 "cb" "()V").2 rfl

/-- C2: `data_SwiftToJava` returns null exactly when the external
allocation returned null, and on that path it returns at once: the runtime
state is unchanged (no byte is written) and the only external call made is
the allocation itself — no `SetByteArrayRegion` call appears. -/
theorem data_SwiftToJava_alloc_guard (s : JNIState) (d : CData) :
    ((data_SwiftToJava s d).1 = none ↔
      (extNewByteArray s (toJsize d.count)).1 = none) ∧
    ((data_SwiftToJava s d).1 = none →
      data_SwiftToJava s d =
        (none, s, [ExtCall.newByteArray (toJsize d.count)])) := by
  by_cases hc : s.allocFails ∨ toJsize d.count < 0
  · have he : extNewByteArray s (toJsize d.count) = (none, s) := by
      simp [extNewByteArray, hc]
    simp [data_SwiftToJava, he]
  · have he : extNewByteArray s (toJsize d.count) =
        (some s.arrays.length,
          { s with arrays :=
              s.arrays ++ [List.replicate (toJsize d.count).toNat 0] }) := by
      simp [extNewByteArray, hc]
    simp [data_SwiftToJava, he]

/-- Witness for C2: with a failing allocator the conversion of the
concrete buffer returns null, the state untouched, and a lone allocation
call in the trace. -/
theorem data_SwiftToJava_alloc_guard_witness :
    data_SwiftToJava failState exBuf =
      (none, failState, [ExtCall.newByteArray (toJsize exBuf.count)]) :=
  (data_SwiftToJava_alloc_guard failState exBuf).2 rfl

/-- C10: every length `data_SwiftToJava` hands to the external runtime —
for the allocation and for the copy alike — is the `unsigned int` count
converted to a signed 32-bit `jsize`; for counts of at least `2^31` (and
below `2^32`) that conversion wraps to a negative value different from the
caller's count. -/
theorem data_SwiftToJava_count_wraps (s : JNIState) (d : CData) :
    (∀ e ∈ (data_SwiftToJava s d).2.2,
      e = ExtCall.newByteArray (toJsize d.count) ∨
      ∃ r, e = ExtCall.setByteArrayRegion r 0 (toJsize d.count)) ∧
    (2 ^ 31 ≤ d.count → d.count < 2 ^ 32 →
      toJsize d.count = (d.count : Int) - 2 ^ 32 ∧ toJsize d.count < 0 ∧
        toJsize d.count ≠ (d.count : Int)) := by
  constructor
  · intro e he
    by_cases hc : s.allocFails ∨ toJsize d.count < 0
    · have hne : extNewByteArray s (toJsize d.count) = (none, s) := by
        simp [extNewByteArray, hc]
      simp only [data_SwiftToJava, hne, List.mem_singleton] at he
      exact Or.inl he
    · have hne : extNewByteArray s (toJsize d.count) =
          (some s.arrays.length,
            { s with arrays :=
                s.arrays ++ [List.replicate (toJsize d.count).toNat 0] }) := by
        simp [extNewByteArray, hc]
      simp only [data_SwiftToJava, hne, List.mem_cons, List.mem_singleton,
        List.not_mem_nil, or_false] at he
      rcases he with he | he
      · exact Or.inl he
      · exact Or.inr ⟨s.arrays.length, he⟩
  · intro h1 h2
    exact toJsize_wraps d.count h1 h2

/-- The concrete buffer whose count field exceeds `2^31 - 1`. -/
theorem data_SwiftToJava_count_wraps_witness :
    toJsize (2 ^ 31) = ((2 ^ 31 : Nat) : Int) - 2 ^ 32 ∧
    toJsize (2 ^ 31) < 0 ∧ toJsize (2 ^ 31) ≠ ((2 ^ 31 : Nat) : Int) :=
  (data_SwiftToJava_count_wraps (mkState [])
      { data := [], count := 2 ^ 31 }).2
    (by norm_num) (by norm_num)

/-- C1: whenever the managed allocation inside `data_SwiftToJava`
succeeds, the returned reference designates a managed array of exactly
`count` elements whose contents are byte-for-byte the first `count` bytes
of the native buffer, written starting at offset 0. -/
theorem data_SwiftToJava_roundtrip (s : JNIState) (d : CData) (ret : Nat)
    (t : JNIState) (tr : List ExtCall)
    (hlen : d.count ≤ d.data.length) (hword : d.count < 2 ^ 32)
    (h : data_SwiftToJava s d = (some ret, t, tr)) :
    t.arrays[ret]? = some (d.data.take d.count) ∧
    (d.data.take d.count).length = d.count := by
  by_cases hc : s.allocFails ∨ toJsize d.count < 0
  · have hne : extNewByteArray s (toJsize d.count) = (none, s) := by
      simp [extNewByteArray, hc]
    simp [data_SwiftToJava, hne] at h
  · have hnn : ¬ toJsize d.count < 0 := fun hlt => hc (Or.inr hlt)
    obtain ⟨hj, -⟩ := toJsize_nonneg_elim d.count hword hnn
    have htoNat : (toJsize d.count).toNat = d.count := by
      rw [hj]; exact Int.toNat_ofNat d.count
    have hne : extNewByteArray s (toJsize d.count) =
        (some s.arrays.length,
          { s with arrays :=
              s.arrays ++ [List.replicate (toJsize d.count).toNat 0] }) := by
      simp [extNewByteArray, hc]
    simp only [data_SwiftToJava, hne, Prod.mk.injEq, Option.some.injEq] at h
    obtain ⟨hret, ht, -⟩ := h
    have hgetD :
        (s.arrays ++ [List.replicate (toJsize d.count).toNat 0]).getD
            s.arrays.length [] =
          List.replicate (toJsize d.count).toNat 0 := by
      simp [List.getD_eq_getElem?_getD, List.getElem?_concat_length]
    have hdrop :
        (List.replicate (toJsize d.count).toNat (0 : JByte)).drop
            ((0 : Int).toNat + (toJsize d.count).toNat) = [] :=
      List.drop_eq_nil_iff.mpr (by simp)
    have hwrite :
        writeRegion (List.replicate (toJsize d.count).toNat 0) 0
            (toJsize d.count) d.data = d.data.take d.count := by
      rw [writeRegion, hdrop, htoNat]
      simp
    have harr : t.arrays = s.arrays ++ [d.data.take d.count] := by
      rw [← ht]
      simp only [extSetByteArrayRegion, hgetD, hwrite]
      exact set_append_singleton s.arrays _ _
    constructor
    · rw [harr, ← hret]
      exact List.getElem?_concat_length s.arrays (d.data.take d.count)
    · rw [List.length_take]
      exact Nat.min_eq_left hlen

/-- Witness for C1 at the buffer of spec §8 item 7: converting
`[0x41, 0x00, 0xFF]` with count 3 and reading the new array back yields
the original three bytes. -/
theorem data_SwiftToJava_roundtrip_witness :
    ((data_SwiftToJava (mkState []) exBuf).2.1).arrays[0]? =
        some (exBuf.data.take exBuf.count) ∧
      (exBuf.data.take exBuf.count).length = exBuf.count :=
  data_SwiftToJava_roundtrip (mkState []) exBuf 0
    ((data_SwiftToJava (mkState []) exBuf).2.1)
    ((data_SwiftToJava (mkState []) exBuf).2.2)
    (by decide) (by decide) rfl

/-- C3 counterexample: two runs of `DetachCurrentThread` whose external
runtime reports success (`0`) in one and `JNI_EDETACHED` (`-2`) in the
other give the caller the identical (empty) output and the identical call
trace — the status code is discarded by the `void` wrapper, not returned. -/
theorem DetachCurrentThread_status_not_returned :
    (DetachCurrentThread detachOkState).1 =
        (DetachCurrentThread detachErrState).1 ∧
      (DetachCurrentThread detachOkState).2.2 =
        (DetachCurrentThread detachErrState).2.2 ∧
      detachOkState.detachStatus = 0 ∧ detachErrState.detachStatus = -2 :=
  ⟨rfl, rfl, rfl, rfl⟩

/-- C3 amended: `GetJNIEnv`, `AttachCurrentThread` and
`DetachCurrentThread` are `void` wrappers that discard the external status
code: any two non-success statuses are indistinguishable to the caller
(identical outputs and traces) — at most the null env slot reveals that
some failure happened, never which. -/
theorem adapter_discards_status (s : JNIState) (c1 c2 : Int)
    (h1 : c1 ≠ 0) (h2 : c2 ≠ 0) :
    ((GetJNIEnv { s with getEnvStatus := c1 }).1 =
        (GetJNIEnv { s with getEnvStatus := c2 }).1) ∧
      ((AttachCurrentThread { s with attachStatus := c1 }).1 =
        (AttachCurrentThread { s with attachStatus := c2 }).1) ∧
      ((DetachCurrentThread { s with detachStatus := c1 }).1 =
        (DetachCurrentThread { s with detachStatus := c2 }).1) ∧
      ((GetJNIEnv { s with getEnvStatus := c1 }).2.2 =
        (GetJNIEnv { s with getEnvStatus := c2 }).2.2) ∧
      ((AttachCurrentThread { s with attachStatus := c1 }).2.2 =
        (AttachCurrentThread { s with attachStatus := c2 }).2.2) ∧
      ((DetachCurrentThread { s with detachStatus := c1 }).2.2 =
        (DetachCurrentThread { s with detachStatus := c2 }).2.2) := by
  refine ⟨?_, ?_, rfl, rfl, rfl, rfl⟩
  · simp [GetJNIEnv, extGetEnv, h1, h2]
  · simp [AttachCurrentThread, extAttachCurrentThread, h1, h2]

/-- Witness for the amended C3, distinguishing `JNI_EDETACHED` (`-2`)
from `JNI_EVERSION` (`-3`): the caller sees identical results. -/
theorem adapter_discards_status_witness :
    ((GetJNIEnv { mkState [] with getEnvStatus := -2 }).1 =
        (GetJNIEnv { mkState [] with getEnvStatus := -3 }).1) ∧
      ((AttachCurrentThread { mkState [] with attachStatus := -2 }).1 =
        (AttachCurrentThread { mkState [] with attachStatus := -3 }).1) ∧
      ((DetachCurrentThread { mkState [] with detachStatus := -2 }).1 =
        (DetachCurrentThread { mkState [] with detachStatus := -3 }).1) ∧
      ((GetJNIEnv { mkState [] with getEnvStatus := -2 }).2.2 =
        (GetJNIEnv { mkState [] with getEnvStatus := -3 }).2.2) ∧
      ((AttachCurrentThread { mkState [] with attachStatus := -2 }).2.2 =
        (AttachCurrentThread { mkState [] with attachStatus := -3 }).2.2) ∧
      ((DetachCurrentThread { mkState [] with detachStatus := -2 }).2.2 =
        (DetachCurrentThread { mkState [] with detachStatus := -3 }).2.2) :=
  adapter_discards_status (mkState []) (-2) (-3) (by decide) (by decide)

/-- C8: every adapter operation is a pure function of its arguments and
the runtime state, and its call trace invokes each external entry point it
uses exactly once: the traces are fixed explicit lists (for
`data_SwiftToJava`, one allocation call, followed by at most one copy
call), with no retry and no adapter-retained state between calls. -/
theorem adapter_single_call_stateless (s : JNIState) (obj cls arr : Nat)
    (name sig : String) (d : CData) :
    (GetJVM s).2.2 = [ExtCall.getJavaVM] ∧
    (GetJNIEnv s).2.2 = [ExtCall.getEnv JNI_VERSION_1_6] ∧
    (AttachCurrentThread s).2.2 = [ExtCall.attachCurrentThread] ∧
    (DetachCurrentThread s).2.2 = [ExtCall.detachCurrentThread] ∧
    (CallVoidMethod s obj name sig).2.2 =
      [ExtCall.getObjectClass obj,
       ExtCall.getMethodID (extGetObjectClass s obj) name sig,
       ExtCall.callVoidMethodExt obj
         (extGetMethodID s (extGetObjectClass s obj) name sig)] ∧
    (GetArrayLength s cls arr).2.2 = [ExtCall.getArrayLengthExt arr] ∧
    (GetByteArrayElements s cls arr).2.2 =
      [ExtCall.getByteArrayElementsExt arr none] ∧
    ((data_SwiftToJava s d).2.2 = [ExtCall.newByteArray (toJsize d.count)] ∨
      (data_SwiftToJava s d).2.2 =
        [ExtCall.newByteArray (toJsize d.count),
         ExtCall.setByteArrayRegion s.arrays.length 0 (toJsize d.count)]) := by
  refine ⟨rfl, rfl, rfl, rfl, rfl, rfl, rfl, ?_⟩
  by_cases hc : s.allocFails ∨ toJsize d.count < 0
  · have hne : extNewByteArray s (toJsize d.count) = (none, s) := by
      simp [extNewByteArray, hc]
    left
    simp [data_SwiftToJava, hne]
  · have hne : extNewByteArray s (toJsize d.count) =
        (some s.arrays.length,
          { s with arrays :=
              s.arrays ++ [List.replicate (toJsize d.count).toNat 0] }) := by
      simp [extNewByteArray, hc]
    right
    simp [data_SwiftToJava, hne]

end CDroidJNI
